import Mathlib

/-! WebSocket echo server (`src/main.cpp`).

A shallow embedding of the asynchronous echo server: the diagnostic helper
`fail`, the per-connection `Session` and the `Listener`.

The program is written in continuation-passing style on top of Boost.Asio and
Boost.Beast: a member function initiates an asynchronous operation and names the
member function that the library calls when the operation completes.  Here

* the state a member function reads or writes is passed explicitly,
* an initiated operation is recorded on the I/O object it was initiated on
  (`Stream.outstanding`, `Acceptor.outstanding`) together with a log of every
  operation ever initiated (`initiated`),
* a completion is an input (`Completion`, `AcceptCompletion`): it removes the
  operation from `outstanding`, applies what the library did to the program's
  objects (the bytes a read appended to the buffer, `got_text`) and calls the
  handler named in the source.
-/

namespace EchoServer

set_option linter.unusedVariables false

/-! ## Error codes and the diagnostic sink -/

/-- Error categories of `boost::system::error_code` that the server can meet. -/
inductive error_category where
  | system
  | asio_misc
  | websocket
  | other (id : Nat)
  deriving DecidableEq

/-- A `beast::error_code`: an integer value within a category. -/
structure error_code where
  value : Int
  category : error_category
  deriving DecidableEq

namespace error_code

/-- The default-constructed error code `error_code{}`: success. -/
def success : error_code := ⟨0, .system⟩

/-- Contextual conversion `if (ec)`: true when the code denotes a failure. -/
def failed (ec : error_code) : Bool := ec.value != 0

end error_code

/-- The code `websocket::error::closed` (first enumerator of `websocket::error`). -/
def websocket_error_closed : error_code := ⟨1, .websocket⟩

/-- The code `boost::asio::error::eof`: the peer shut the connection down. -/
def net_error_eof : error_code := ⟨2, .asio_misc⟩

/-- The code `boost::asio::error::connection_reset` (`ECONNRESET`). -/
def net_error_connection_reset : error_code := ⟨104, .system⟩

/-- The code `boost::asio::error::connection_aborted` (`ECONNABORTED`). -/
def net_error_connection_aborted : error_code := ⟨103, .system⟩

/-- The code `boost::asio::error::no_descriptors` (`EMFILE`). -/
def net_error_no_descriptors : error_code := ⟨24, .system⟩

/-- The code `boost::asio::error::bad_descriptor` (`EBADF`). -/
def net_error_bad_descriptor : error_code := ⟨9, .system⟩

/-- The code `boost::asio::error::operation_aborted` (`ECANCELED`). -/
def net_error_operation_aborted : error_code := ⟨125, .system⟩

/-- The code `boost::asio::error::address_in_use` (`EADDRINUSE`). -/
def net_error_address_in_use : error_code := ⟨98, .system⟩

/-- The two process-wide output streams. -/
structure Console where
  cerr : String
  cout : String
  deriving DecidableEq

/-- `fail(ec, what)`, lines 21-25:
`std::cerr << "what" << ": " << ec.message() << "\n";`.
The first thing streamed is the string literal `"what"`; the parameter `what`
is not used.  `message` stands for `error_code::message()`. -/
def fail (message : error_code → String) (ec : error_code) (what : String)
    (con : Console) : Console :=
  { con with cerr := con.cerr ++ "what" ++ ": " ++ message ec ++ "\n" }

/-! ## The parts of Boost.Beast the session uses -/

/-- A `beast::role_type`. -/
inductive role_type where
  | client
  | server
  deriving DecidableEq

/-- A `websocket::stream_base::timeout`; durations in seconds, `none` for
`stream_base::none()`. -/
structure timeout where
  handshake_timeout : Option Nat
  idle_timeout : Option Nat
  keep_alive_pings : Bool
  deriving DecidableEq

/-- The library's `timeout::suggested(role)`. -/
def timeout.suggested : role_type → timeout
  | .client => ⟨some 30, none, false⟩
  | .server => ⟨some 30, some 300, true⟩

/-- The header fields of an HTTP message, as name/value pairs. -/
abbrev Fields := List (String × String)

/-- `fields::set(name, value)`: drop every field of that name, then insert. -/
def Fields.set (fs : Fields) (name value : String) : Fields :=
  fs.filter (fun f => f.1 != name) ++ [(name, value)]

/-- `fields::count(name)`. -/
def Fields.count (fs : Fields) (name : String) : Nat :=
  (fs.filter (fun f => f.1 == name)).length

/-- The value of the first field of that name, if any. -/
def Fields.find (fs : Fields) (name : String) : Option String :=
  (fs.find? (fun f => f.1 == name)).map Prod.snd

/-- The name of `http::field::server`. -/
def http_field_server : String := "Server"

/-- A callable handed to `websocket::stream_base::decorator`, together with the
message type of its parameter: `websocket::request_type&` or
`websocket::response_type&`. -/
inductive DecoratorCallable where
  | request_type (f : Fields → Fields)
  | response_type (f : Fields → Fields)

/-- The library's type-erased decorator (`websocket::detail::decorator`): one
entry invoked on handshake requests, one on handshake responses. -/
structure Decorator where
  invoke_req : Fields → Fields
  invoke_res : Fields → Fields

/-- The decorator a stream starts with: both entries do nothing. -/
def Decorator.none : Decorator := ⟨id, id⟩

/-- Construction of a decorator from a callable: the library stores the
callable and invokes it only with the message type it accepts; the entry for
the other message type does nothing. -/
def Decorator.ofCallable : DecoratorCallable → Decorator
  | .request_type f => ⟨f, id⟩
  | .response_type f => ⟨id, f⟩

/-- How the library finishes the handshake response of a server
(`stream::impl_type::build_response`): it invokes the stream's decorator on the
response, then sets `Server` to `BOOST_BEAST_VERSION_STRING` if the response
has no `Server` field yet.  `res` holds the fields set before decoration. -/
def build_response (version_string : String) (decorator_opt : Decorator)
    (res : Fields) : Fields :=
  let res := decorator_opt.invoke_res res
  if res.count http_field_server = 0 then res.set http_field_server version_string
  else res

/-- An accepted `tcp::socket`: its native handle and the strand it was bound to
when it was accepted. -/
structure Socket where
  handle : Nat
  strand : Nat
  deriving DecidableEq

/-- An asynchronous operation initiated on the websocket stream.  A read
records the readable bytes of the buffer handed to it, a write the bytes of the
buffer sequence handed to it and the stream's text flag, all at initiation. -/
inductive AsyncOp where
  | accept
  | read (buffer : List UInt8)
  | write (data : List UInt8) (text : Bool)
  deriving DecidableEq

/-- Whether the operation is a read. -/
def AsyncOp.isRead : AsyncOp → Bool
  | .read _ => true
  | _ => false

/-- Whether the operation is a write. -/
def AsyncOp.isWrite : AsyncOp → Bool
  | .write _ _ => true
  | _ => false

/-- The state of a `websocket::stream<beast::tcp_stream>` that the session sets
or observes, and the operations initiated on it. -/
structure Stream where
  socket : Socket
  timeout_opt : timeout
  decorator_opt : Decorator
  got_text : Bool
  text : Bool
  outstanding : List AsyncOp
  initiated : List AsyncOp

namespace Stream

/-- Construction from a socket: no timeouts, no decorator, text mode both ways,
nothing initiated. -/
def ofSocket (socket : Socket) : Stream :=
  { socket := socket
    timeout_opt := ⟨none, none, false⟩
    decorator_opt := Decorator.none
    got_text := true
    text := true
    outstanding := []
    initiated := [] }

/-- Initiation of an asynchronous operation on the stream. -/
def initiate (ws : Stream) (op : AsyncOp) : Stream :=
  { ws with outstanding := ws.outstanding ++ [op], initiated := ws.initiated ++ [op] }

/-- Removal of a completed operation from the outstanding ones. -/
def retire (ws : Stream) (op : AsyncOp) : Stream :=
  { ws with outstanding := ws.outstanding.erase op }

/-- `ws.set_option(timeout)`. -/
def set_option_timeout (ws : Stream) (t : timeout) : Stream :=
  { ws with timeout_opt := t }

/-- `ws.set_option(decorator)`. -/
def set_option_decorator (ws : Stream) (d : Decorator) : Stream :=
  { ws with decorator_opt := d }

/-- `ws.text(value)`: whether outgoing messages are text. -/
def set_text (ws : Stream) (value : Bool) : Stream :=
  { ws with text := value }

/-- `ws.async_accept(handler)`: the server side of the opening handshake. -/
def async_accept (ws : Stream) : Stream :=
  ws.initiate .accept

/-- `ws.async_read(buffer, handler)`. -/
def async_read (ws : Stream) (buffer : List UInt8) : Stream :=
  ws.initiate (.read buffer)

/-- `ws.async_write(data, handler)`: sends `data` as one message of the
stream's current kind. -/
def async_write (ws : Stream) (data : List UInt8) : Stream :=
  ws.initiate (.write data ws.text)

end Stream

/-! ## Session (lines 27-99) -/

/-- The data members of `Session`; `buffer_` holds the readable bytes of the
`beast::flat_buffer`. -/
structure Session where
  ws_ : Stream
  buffer_ : List UInt8

namespace Session

/-- The constructor `Session(tcp::socket&&)`, lines 33-36. -/
def new (socket : Socket) : Session :=
  { ws_ := Stream.ofSocket socket, buffer_ := [] }

/-- `Session::run`, lines 38-49.  The callable given to the decorator option
has a parameter of type `websocket::request_type&`; `version_string` stands for
`BOOST_BEAST_VERSION_STRING`. -/
def run (version_string : String) (self : Session) : Session :=
  let ws := self.ws_.set_option_timeout (timeout.suggested .server)
  let ws := ws.set_option_decorator (Decorator.ofCallable (.request_type fun res =>
    res.set http_field_server (version_string ++ " websocket-server-async")))
  { self with ws_ := ws.async_accept }

/-- `Session::do_read`, lines 61-64. -/
def do_read (self : Session) : Session :=
  { self with ws_ := self.ws_.async_read self.buffer_ }

/-- `Session::on_accept`, lines 51-59. -/
def on_accept (message : error_code → String) (ec : error_code)
    (self : Session) (con : Console) : Session × Console :=
  if ec.failed then
    (self, fail message ec "accept" con)
  else
    (self.do_read, con)

/-- `Session::on_read`, lines 66-84.  After `fail(ec, "read")` control
continues with the two statements that follow the `if`. -/
def on_read (message : error_code → String) (ec : error_code)
    (bytes_transferred : Nat) (self : Session) (con : Console) : Session × Console :=
  if ec = websocket_error_closed then
    (self, con)
  else
    let con := if ec.failed then fail message ec "read" con else con
    let ws := self.ws_.set_text self.ws_.got_text
    let ws := ws.async_write self.buffer_
    ({ self with ws_ := ws }, con)

/-- `Session::on_write`, lines 86-98. -/
def on_write (message : error_code → String) (ec : error_code)
    (bytes_transferred : Nat) (self : Session) (con : Console) : Session × Console :=
  if ec.failed then
    (self, fail message ec "ec" con)
  else
    let self := { self with buffer_ := self.buffer_.drop self.buffer_.length }
    (self.do_read, con)

end Session

/-- A completion of an operation of a session, as the library reports it.  A
read completion carries what the library did before calling the handler: the
bytes it appended to the buffer and the kind of the message it was reading. -/
inductive Completion where
  | accept (ec : error_code)
  | read (ec : error_code) (data : List UInt8) (is_text : Bool)
  | write (ec : error_code) (bytes_transferred : Nat)
  deriving DecidableEq

/-- One completion: the matching outstanding operation is retired and its
handler called.  `none` when no such operation is outstanding. -/
def Session.complete (message : error_code → String) (c : Completion)
    (self : Session) (con : Console) : Option (Session × Console) :=
  match c with
  | .accept ec =>
    match self.ws_.outstanding.find? (fun op => op == AsyncOp.accept) with
    | some op => some (Session.on_accept message ec { self with ws_ := self.ws_.retire op } con)
    | none => none
  | .read ec data is_text =>
    match self.ws_.outstanding.find? AsyncOp.isRead with
    | some op =>
      let ws := { self.ws_.retire op with got_text := is_text }
      some (Session.on_read message ec data.length
        { ws_ := ws, buffer_ := self.buffer_ ++ data } con)
    | none => none
  | .write ec bytes_transferred =>
    match self.ws_.outstanding.find? AsyncOp.isWrite with
    | some op =>
      some (Session.on_write message ec bytes_transferred
        { self with ws_ := self.ws_.retire op } con)
    | none => none

/-- A sequence of completions, in order. -/
def Session.completions (message : error_code → String) :
    List Completion → Session → Console → Option (Session × Console)
  | [], self, con => some (self, con)
  | c :: cs, self, con =>
    match Session.complete message c self con with
    | some (self, con) => Session.completions message cs self con
    | none => none

/-- The session has no operation in flight: nothing refers to it any more. -/
def Session.closed (self : Session) : Prop := self.ws_.outstanding = []

instance (self : Session) : Decidable self.closed :=
  inferInstanceAs (Decidable (self.ws_.outstanding = []))

/-- An inbound or outbound data message. -/
structure Message where
  payload : List UInt8
  is_text : Bool
  deriving DecidableEq

/-- The buffer invariant of a session: every read it has initiated was handed
an empty buffer, at most one operation is outstanding, and the buffer is empty
while the handshake or a read is outstanding. -/
def Session.buffer_invariant (self : Session) : Prop :=
  (∀ b, AsyncOp.read b ∈ self.ws_.initiated → b = []) ∧
  (self.ws_.outstanding = [] ∨
    (self.ws_.outstanding = [AsyncOp.accept] ∧ self.buffer_ = []) ∨
    (self.ws_.outstanding = [AsyncOp.read []] ∧ self.buffer_ = []) ∨
    ∃ data text, self.ws_.outstanding = [AsyncOp.write data text])

/-- The messages written by a list of operations, in order. -/
def writes : List AsyncOp → List Message
  | [] => []
  | .write data text :: ops => ⟨data, text⟩ :: writes ops
  | _ :: ops => writes ops

/-! ## Listener (lines 101-168) -/

/-- The protocol family of an endpoint. -/
inductive Protocol where
  | v4
  | v6
  deriving DecidableEq

/-- A `tcp::endpoint`. -/
structure Endpoint where
  protocol : Protocol
  address : String
  port : Nat
  deriving DecidableEq

/-- The state of the `tcp::acceptor`.  An asynchronous accept is recorded by
the strand made for the socket it will deliver. -/
structure Acceptor where
  is_open : Option Protocol
  reuse_address : Bool
  local_endpoint : Option Endpoint
  listening : Bool
  outstanding : List Nat
  initiated : List Nat
  deriving DecidableEq

/-- The acceptor as `acceptor_(ioc)` constructs it: not open. -/
def Acceptor.ofContext : Acceptor :=
  { is_open := none, reuse_address := false, local_endpoint := none, listening := false
    outstanding := [], initiated := [] }

/-- `acceptor.async_accept(executor, handler)`. -/
def Acceptor.async_accept (a : Acceptor) (strand : Nat) : Acceptor :=
  { a with outstanding := a.outstanding ++ [strand], initiated := a.initiated ++ [strand] }

/-- The error codes that the four set-up calls on the acceptor report. -/
structure SetupResults where
  open_ec : error_code
  set_option_ec : error_code
  bind_ec : error_code
  listen_ec : error_code
  deriving DecidableEq

/-- The `net::io_context`, as far as strands go: how many have been made. -/
structure io_context where
  strands : Nat
  deriving DecidableEq

/-- The data members of `Listener`; `ioc_` refers to `Server.ioc`. -/
structure Listener where
  acceptor_ : Acceptor
  deriving DecidableEq

/-- The process after start-up: the io_context, the listener, the sessions the
listener has made, and the output streams. -/
structure Server where
  ioc : io_context
  listener : Listener
  sessions : List Session
  con : Console

namespace Listener

/-- The constructor `Listener(ioc, endpoint)`, lines 107-138: each set-up call
that reports an error is followed by `fail` and `return`. -/
def new (message : error_code → String) (r : SetupResults) (endpoint : Endpoint)
    (con : Console) : Listener × Console :=
  let acceptor := Acceptor.ofContext
  if r.open_ec.failed then
    ({ acceptor_ := acceptor }, fail message r.open_ec "open" con)
  else
    let acceptor := { acceptor with is_open := some endpoint.protocol }
    if r.set_option_ec.failed then
      ({ acceptor_ := acceptor }, fail message r.set_option_ec "set_option" con)
    else
      let acceptor := { acceptor with reuse_address := true }
      if r.bind_ec.failed then
        ({ acceptor_ := acceptor }, fail message r.bind_ec "bind" con)
      else
        let acceptor := { acceptor with local_endpoint := some endpoint }
        if r.listen_ec.failed then
          ({ acceptor_ := acceptor }, fail message r.listen_ec "listen" con)
        else
          ({ acceptor_ := { acceptor with listening := true } }, con)

/-- `Listener::do_accept`, lines 146-151: `net::make_strand(ioc_)` makes a new
strand, and an asynchronous accept is initiated with it. -/
def do_accept (w : Server) : Server :=
  let strand := w.ioc.strands
  { w with
    ioc := { strands := strand + 1 }
    listener := { acceptor_ := w.listener.acceptor_.async_accept strand } }

/-- `Listener::run`, lines 140-143. -/
def run (w : Server) : Server :=
  do_accept w

/-- `Listener::on_accept`, lines 153-167. -/
def on_accept (message : error_code → String) (version_string : String)
    (ec : error_code) (socket : Socket) (w : Server) : Server :=
  let w := { w with con := { w.con with cout := w.con.cout ++ "Accepted connection" } }
  let w :=
    if ec.failed then
      { w with con := fail message ec "accept" w.con }
    else
      { w with sessions := w.sessions ++ [Session.run version_string (Session.new socket)] }
  do_accept w

/-- The completion of the oldest outstanding accept: the operation is retired
and `on_accept` is called with the reported code and a socket on the strand
given at initiation.  `none` when no accept is outstanding. -/
def complete (message : error_code → String) (version_string : String)
    (ec : error_code) (handle : Nat) (w : Server) : Option Server :=
  match w.listener.acceptor_.outstanding with
  | [] => none
  | strand :: rest =>
    some (on_accept message version_string ec ⟨handle, strand⟩
      { w with listener := { acceptor_ := { w.listener.acceptor_ with outstanding := rest } } })

end Listener

/-- A sequence of accept completions, each given by its error code and the
handle of the socket it delivers, in order. -/
def Listener.completions (message : error_code → String) (version_string : String) :
    List (error_code × Nat) → Server → Option Server
  | [], w => some w
  | c :: cs, w =>
    match Listener.complete message version_string c.1 c.2 w with
    | some w => Listener.completions message version_string cs w
    | none => none

/-- Lines 184-185 of `main` up to the call of `run`:
`std::make_shared<Listener>(ioc, endpoint)`. -/
def make_listener (message : error_code → String) (r : SetupResults)
    (endpoint : Endpoint) : Server :=
  let made := Listener.new message r endpoint ⟨"", ""⟩
  { ioc := ⟨0⟩, listener := made.1, sessions := [], con := made.2 }

/-! ## Auxiliary definitions for the statements -/

/-- Whether the text `line` begins with `tag`. -/
def begins_with (tag line : String) : Bool :=
  tag.data.isPrefixOf line.data

/-- The tags that the call sites of `fail` are meant to identify. -/
def operation_tags : List String :=
  ["open", "set_option", "bind", "listen", "accept", "read", "write"]

/-- The completions of an echo loop in which every read delivers the next
message and every read and write succeeds. -/
def echo_completions : List Message → List Completion
  | [] => []
  | m :: ms =>
    .read .success m.payload m.is_text :: .write .success m.payload.length ::
      echo_completions ms

/-- The operations an echo loop is expected to initiate for the messages: a
write of each message, followed by the next read on an empty buffer. -/
def echo_operations : List Message → List AsyncOp
  | [] => []
  | m :: ms => .write m.payload m.is_text :: .read [] :: echo_operations ms

/-- A sample of `error_code::message()`: the texts of the codes named above. -/
def sample_message (ec : error_code) : String :=
  if ec = websocket_error_closed then
    "The WebSocket stream was gracefully closed at both endpoints"
  else if ec = net_error_eof then "End of file"
  else if ec = net_error_connection_reset then "Connection reset by peer"
  else if ec = net_error_connection_aborted then "Software caused connection abort"
  else if ec = net_error_no_descriptors then "Too many open files"
  else if ec = net_error_bad_descriptor then "Bad file descriptor"
  else if ec = net_error_operation_aborted then "Operation canceled"
  else if ec = net_error_address_in_use then "Address already in use"
  else if ec = error_code.success then "Success"
  else "Unknown error"

/-- The fields of the handshake response before it is decorated. -/
def upgrade_fields (accept_key : String) : Fields :=
  [("Upgrade", "websocket"), ("Connection", "upgrade"), ("Sec-WebSocket-Accept", accept_key)]

/-- The fields of the response the library sends when the handshake of the
session succeeds. -/
def Session.handshake_response (version_string : String) (self : Session)
    (accept_key : String) : Fields :=
  build_response version_string self.ws_.decorator_opt (upgrade_fields accept_key)

/-- A sample of `BOOST_BEAST_VERSION_STRING`. -/
def sample_version : String := "Boost.Beast/347"

/-- A session as the listener makes it: constructed on a socket and run. -/
def sample_session : Session := Session.run sample_version (Session.new ⟨5, 0⟩)

/-- A run of `sample_session`: the handshake succeeds, a binary message is
echoed, the next read ends with end-of-file after one byte, and the write that
follows succeeds. -/
def sample_completions : List Completion :=
  [.accept .success, .read .success [1, 2] false, .write .success 2,
    .read net_error_eof [7] true, .write .success 1]

/-- The session at the end of `sample_completions`. -/
def sample_final : Session :=
  { ws_ :=
      { socket := ⟨5, 0⟩
        timeout_opt := timeout.suggested .server
        decorator_opt := Decorator.ofCallable (.request_type fun res =>
          res.set http_field_server (sample_version ++ " websocket-server-async"))
        got_text := true
        text := true
        outstanding := [.read []]
        initiated := [.accept, .read [], .write [1, 2] false, .read [], .write [7] true,
          .read []] }
    buffer_ := [] }

/-- A sample endpoint. -/
def sample_endpoint : Endpoint := ⟨.v4, "0.0.0.0", 8080⟩

/-- Set-up in which every call succeeds. -/
def setup_ok : SetupResults := ⟨.success, .success, .success, .success⟩

/-- Set-up in which `bind` reports `address_in_use`. -/
def setup_bind_fails : SetupResults :=
  ⟨.success, .success, net_error_address_in_use, .success⟩

/-! ## Basic facts -/

theorem fail_cerr (message : error_code → String) (ec : error_code) (what : String)
    (con : Console) :
    (fail message ec what con).cerr = con.cerr ++ ("what: " ++ message ec ++ "\n") := by
  simp [fail, String.append_assoc]

theorem begins_with_what_line (tag rest : String) (c1 c2 : Char) (cs : List Char)
    (h : tag.data = c1 :: c2 :: cs) (hne : ¬ (c1 = 'w' ∧ c2 = 'h')) :
    begins_with tag ("what: " ++ rest) = false := by
  unfold begins_with
  rw [String.data_append, h]
  show List.isPrefixOf (c1 :: c2 :: cs) ('w' :: 'h' :: _) = false
  simp only [List.isPrefixOf, Bool.and_eq_false_imp, beq_iff_eq]
  intro h1 h2
  exact absurd ⟨h1, h2⟩ hne

theorem writes_append (xs ys : List AsyncOp) : writes (xs ++ ys) = writes xs ++ writes ys := by
  induction xs with
  | nil => rfl
  | cons x xs ih => cases x <;> simp [writes, ih]

theorem writes_echo_operations (ms : List Message) : writes (echo_operations ms) = ms := by
  induction ms with
  | nil => rfl
  | cons m ms ih => simp [echo_operations, writes, ih]

/-- One round of the echo loop: from a session waiting on a read with an empty
buffer, a successful read of `m` followed by a successful write leaves the
session waiting on a read with an empty buffer, having initiated a write of `m`
and a read. -/
theorem echo_round (message : error_code → String) (m : Message) (s : Session)
    (con : Console) (b : List UInt8)
    (hout : s.ws_.outstanding = [AsyncOp.read b]) (hbuf : s.buffer_ = []) :
    ∃ s', Session.completions message
        [.read .success m.payload m.is_text, .write .success m.payload.length] s con
          = some (s', con) ∧
      s'.ws_.outstanding = [AsyncOp.read []] ∧ s'.buffer_ = [] ∧
      s'.ws_.initiated = s.ws_.initiated ++ [.write m.payload m.is_text, .read []] := by
  simp [Session.completions, Session.complete, hout, hbuf, AsyncOp.isRead, AsyncOp.isWrite,
    Session.on_read, Session.on_write, Session.do_read, Stream.retire, Stream.set_text,
    Stream.async_write, Stream.async_read, Stream.initiate, error_code.success,
    error_code.failed, websocket_error_closed]

theorem completions_append (message : error_code → String) (cs ds : List Completion)
    (s : Session) (con : Console) :
    Session.completions message (cs ++ ds) s con =
      (Session.completions message cs s con).bind
        (fun r => Session.completions message ds r.1 r.2) := by
  induction cs generalizing s con with
  | nil => rfl
  | cons c cs ih =>
    simp only [List.cons_append, Session.completions]
    cases Session.complete message c s con with
    | none => rfl
    | some r => exact ih r.1 r.2

/-- The echo loop over a list of messages, from a session waiting on a read
with an empty buffer. -/
theorem echo_loop (message : error_code → String) (ms : List Message) :
    ∀ (s : Session) (con : Console) (b : List UInt8),
      s.ws_.outstanding = [AsyncOp.read b] → s.buffer_ = [] →
      ∃ s', Session.completions message (echo_completions ms) s con = some (s', con) ∧
        s'.ws_.initiated = s.ws_.initiated ++ echo_operations ms := by
  induction ms with
  | nil =>
    intro s con b _ _
    exact ⟨s, rfl, by simp [echo_operations]⟩
  | cons m ms ih =>
    intro s con b hout hbuf
    obtain ⟨s1, h1, hout1, hbuf1, hini1⟩ := echo_round message m s con b hout hbuf
    obtain ⟨s2, h2, hini2⟩ := ih s1 con [] hout1 hbuf1
    refine ⟨s2, ?_, ?_⟩
    · have := completions_append message
        [.read .success m.payload m.is_text, .write .success m.payload.length]
        (echo_completions ms) s con
      simp only [List.cons_append, List.nil_append] at this
      simp only [echo_completions]
      rw [this, h1]
      exact h2
    · rw [hini2, hini1]
      simp [echo_operations]

/-- The session after `run` and a successful handshake: it waits on a read
that was handed an empty buffer. -/
theorem handshake_success (message : error_code → String) (version_string : String)
    (socket : Socket) (con : Console) :
    ∃ s, Session.complete message (.accept .success)
        (Session.run version_string (Session.new socket)) con = some (s, con) ∧
      s.ws_.outstanding = [AsyncOp.read []] ∧ s.buffer_ = [] ∧
      s.ws_.initiated = [.accept, .read []] := by
  simp [Session.complete, Session.run, Session.new, Stream.ofSocket, Stream.async_accept,
    Stream.initiate, Stream.set_option_timeout, Stream.set_option_decorator,
    Session.on_accept, Session.do_read, Stream.async_read, Stream.retire,
    error_code.success, error_code.failed]

/-! ## Echo fidelity -/

/-- Claim C1.  Echo fidelity and ordering: a session is constructed and run, its
handshake succeeds, and the messages `ms` arrive one after the other, every read
and write completing successfully.  Then every completion is accepted, nothing
is written to the console, and the operations the session initiated are the
handshake, a read, and then for each message in order one write followed by one
read; the writes carry exactly the payloads of `ms`, each with the text flag of
that same message. -/
theorem echo_fidelity (message : error_code → String) (version_string : String)
    (socket : Socket) (ms : List Message) (con : Console) :
    ∃ s, Session.completions message (.accept .success :: echo_completions ms)
        (Session.run version_string (Session.new socket)) con = some (s, con) ∧
      writes s.ws_.initiated = ms ∧
      s.ws_.initiated = .accept :: .read [] :: echo_operations ms := by
  obtain ⟨s0, h0, hout0, hbuf0, hini0⟩ := handshake_success message version_string socket con
  obtain ⟨s1, h1, hini1⟩ := echo_loop message ms s0 con [] hout0 hbuf0
  refine ⟨s1, ?_, ?_, ?_⟩
  · simp only [Session.completions, h0]
    exact h1
  · rw [hini1, hini0, writes_append, writes_echo_operations]
    simp [writes]
  · rw [hini1, hini0]
    rfl

/-! ## The buffer invariant -/

theorem buffer_invariant_complete (message : error_code → String) (c : Completion)
    (s s' : Session) (con con' : Console)
    (h : Session.complete message c s con = some (s', con'))
    (hinv : s.buffer_invariant) : s'.buffer_invariant := by
  obtain ⟨hreads, hstate⟩ := hinv
  unfold Session.buffer_invariant
  rcases hstate with h0 | ⟨h0, hb⟩ | ⟨h0, hb⟩ | ⟨d, t, h0⟩
  · cases c <;> simp [Session.complete, h0] at h
  · cases c with
    | accept ec =>
      simp only [Session.complete, h0, List.find?, beq_self_eq_true, Option.some.injEq,
        Session.on_accept] at h
      split at h
      · cases h
        simp [Stream.retire, h0]
        exact hreads
      · cases h
        simp [Session.do_read, Stream.async_read, Stream.initiate, Stream.retire, h0, hb]
        intro b hb'
        rcases hb' with hb' | hb'
        · exact hreads b hb'
        · exact hb'
    | read ec data is_text => simp [Session.complete, h0, AsyncOp.isRead] at h
    | write ec n => simp [Session.complete, h0, AsyncOp.isWrite] at h
  · cases c with
    | accept ec => simp [Session.complete, h0] at h
    | read ec data is_text =>
      simp only [Session.complete, h0, List.find?, AsyncOp.isRead, Option.some.injEq,
        Session.on_read] at h
      split at h
      · cases h
        simp [Stream.retire, h0]
        exact hreads
      · cases h
        simp [Stream.async_write, Stream.set_text, Stream.initiate, Stream.retire, h0]
        exact hreads
    | write ec n => simp [Session.complete, h0, AsyncOp.isWrite] at h
  · cases c with
    | accept ec => simp [Session.complete, h0] at h
    | read ec data is_text => simp [Session.complete, h0, AsyncOp.isRead] at h
    | write ec n =>
      simp only [Session.complete, h0, List.find?, AsyncOp.isWrite, Option.some.injEq,
        Session.on_write] at h
      split at h
      · cases h
        simp [Stream.retire, h0]
        exact hreads
      · cases h
        simp [Session.do_read, Stream.async_read, Stream.initiate, Stream.retire, h0]
        intro b hb'
        rcases hb' with hb' | hb'
        · exact hreads b hb'
        · exact hb'

theorem buffer_invariant_completions (message : error_code → String) (cs : List Completion) :
    ∀ (s s' : Session) (con con' : Console),
      Session.completions message cs s con = some (s', con') →
      s.buffer_invariant → s'.buffer_invariant := by
  induction cs with
  | nil =>
    intro s s' con con' h hinv
    simp only [Session.completions, Option.some.injEq, Prod.mk.injEq] at h
    rw [← h.1]
    exact hinv
  | cons c cs ih =>
    intro s s' con con' h hinv
    simp only [Session.completions] at h
    cases hc : Session.complete message c s con with
    | none => simp [hc] at h
    | some r =>
      obtain ⟨s1, con1⟩ := r
      rw [hc] at h
      exact ih s1 s' con1 con' h (buffer_invariant_complete message c s s1 con con1 hc hinv)

theorem buffer_invariant_run (version_string : String) (socket : Socket) :
    (Session.run version_string (Session.new socket)).buffer_invariant := by
  refine ⟨?_, Or.inr (Or.inl ⟨rfl, rfl⟩)⟩
  intro b hb
  simp [Session.run, Session.new, Stream.ofSocket, Stream.async_accept, Stream.initiate,
    Stream.set_option_timeout, Stream.set_option_decorator] at hb

/-- Claim C3.  Buffer invariant: in every state a session reaches from
construction and `run` through any sequence of handshake, read and write
completions (whatever their error codes and data), every read that `do_read`
has initiated was handed an empty buffer, and the buffer is empty whenever a
read is outstanding. -/
theorem buffer_empty_at_every_read (message : error_code → String)
    (version_string : String) (socket : Socket) (cs : List Completion)
    (con con' : Console) (s : Session)
    (h : Session.completions message cs
      (Session.run version_string (Session.new socket)) con = some (s, con')) :
    (∀ b, AsyncOp.read b ∈ s.ws_.initiated → b = []) ∧
      (∀ b, AsyncOp.read b ∈ s.ws_.outstanding → s.buffer_ = []) := by
  have hinv := buffer_invariant_completions message cs _ s con con' h
    (buffer_invariant_run version_string socket)
  refine ⟨hinv.1, ?_⟩
  intro b hb
  rcases hinv.2 with h0 | ⟨h0, hbuf⟩ | ⟨h0, hbuf⟩ | ⟨d, t, h0⟩
  · simp [h0] at hb
  · simp [h0] at hb
  · exact hbuf
  · simp [h0] at hb

/-- The buffer invariant at the end of the sample run, which passes through a
successful echo and a failed read. -/
theorem buffer_empty_at_every_read_witness :
    Session.completions sample_message sample_completions sample_session ⟨"", ""⟩
        = some (sample_final, ⟨"what: End of file\n", ""⟩) ∧
      ((∀ b, AsyncOp.read b ∈ sample_final.ws_.initiated → b = []) ∧
        (∀ b, AsyncOp.read b ∈ sample_final.ws_.outstanding → sample_final.buffer_ = [])) :=
  ⟨rfl, buffer_empty_at_every_read sample_message sample_version ⟨5, 0⟩ sample_completions
    ⟨"", ""⟩ ⟨"what: End of file\n", ""⟩ sample_final rfl⟩

/-! ## Error paths of the session -/

/-- Claim C4 (divergence).  Whatever tag a call site passes, the text `fail`
appends to the diagnostic stream is `what: ` followed by the message and a
newline; it begins with none of the operation tags. -/
theorem fail_writes_literal_what (message : error_code → String) (ec : error_code)
    (what : String) (con : Console) :
    (fail message ec what con).cerr = con.cerr ++ ("what: " ++ message ec ++ "\n") ∧
      operation_tags.all
        (fun tag => !begins_with tag ("what: " ++ message ec ++ "\n")) = true := by
  refine ⟨fail_cerr message ec what con, ?_⟩
  simp only [operation_tags, List.all_cons, List.all_nil, Bool.and_true, Bool.and_eq_true,
    Bool.not_eq_true', String.append_assoc]
  exact ⟨begins_with_what_line _ _ 'o' 'p' _ rfl (by decide),
    begins_with_what_line _ _ 's' 'e' _ rfl (by decide),
    begins_with_what_line _ _ 'b' 'i' _ rfl (by decide),
    begins_with_what_line _ _ 'l' 'i' _ rfl (by decide),
    begins_with_what_line _ _ 'a' 'c' _ rfl (by decide),
    begins_with_what_line _ _ 'r' 'e' _ rfl (by decide),
    begins_with_what_line _ _ 'w' 'r' _ rfl (by decide)⟩

/-- Claim C2 (divergence).  A session is run, the handshake succeeds and the
first read ends with `connection_reset`: `on_read` reports the error and then
initiates a write of the buffer, which stays outstanding. -/
theorem read_error_falls_through_to_write (message : error_code → String)
    (version_string : String) (socket : Socket) (data : List UInt8) (is_text : Bool)
    (con : Console) :
    (Session.completions message
        [.accept .success, .read net_error_connection_reset data is_text]
        (Session.run version_string (Session.new socket)) con).map
      (fun r => (r.1.ws_.outstanding, r.1.ws_.initiated, r.2))
      = some ([.write data is_text], [.accept, .read [], .write data is_text],
          fail message net_error_connection_reset "read" con) := by
  simp [Session.completions, Session.complete, Session.run, Session.new, Stream.ofSocket,
    Stream.async_accept, Stream.initiate, Stream.set_option_timeout,
    Stream.set_option_decorator, Session.on_accept, Session.do_read, Stream.async_read,
    Stream.retire, error_code.success, error_code.failed, AsyncOp.isRead, Session.on_read,
    Stream.set_text, Stream.async_write, net_error_connection_reset, websocket_error_closed]

/-- Claim C8 (counterexample).  The peer shuts the connection down between two
messages, so the read ends with `eof`: a line is written to the diagnostic
stream and a write is initiated, so the session is not closed. -/
theorem eof_read_is_reported :
    (Session.completions sample_message [.accept .success, .read net_error_eof [] true]
        sample_session ⟨"", ""⟩).map
      (fun r => (r.2.cerr, r.1.ws_.outstanding))
      = some ("what: End of file\n", [.write [] true]) := by
  rfl

/-- Claim C8 (amended).  For a session waiting on a read: when the read ends
with `websocket::error::closed`, `on_read` writes nothing, initiates nothing and
the session is closed; when it ends with any other failing code, the code is
reported on the diagnostic stream. -/
theorem closed_read_is_silent (message : error_code → String) (s : Session)
    (b data : List UInt8) (is_text : Bool) (con : Console)
    (h : s.ws_.outstanding = [AsyncOp.read b]) :
    (∃ s', Session.complete message (.read websocket_error_closed data is_text) s con
          = some (s', con) ∧
        s'.closed ∧ s'.ws_.initiated = s.ws_.initiated) ∧
      (∀ ec : error_code, ec ≠ websocket_error_closed → ec.failed = true →
        ∃ s', Session.complete message (.read ec data is_text) s con
          = some (s', fail message ec "read" con)) := by
  constructor
  · simp [Session.complete, h, AsyncOp.isRead, Session.on_read, Session.closed, Stream.retire]
  · intro ec hne hf
    simp [Session.complete, h, AsyncOp.isRead, Session.on_read, hne, hf]

/-- The silent close at the session that ends the sample run, which waits on a
read. -/
theorem closed_read_is_silent_witness :
    sample_final.ws_.outstanding = [AsyncOp.read []] ∧
      ((∃ s', Session.complete sample_message (.read websocket_error_closed [] true)
            sample_final ⟨"", ""⟩ = some (s', ⟨"", ""⟩) ∧
          s'.closed ∧ s'.ws_.initiated = sample_final.ws_.initiated) ∧
        (∀ ec : error_code, ec ≠ websocket_error_closed → ec.failed = true →
          ∃ s', Session.complete sample_message (.read ec [] true) sample_final ⟨"", ""⟩
              = some (s', fail sample_message ec "read" ⟨"", ""⟩))) :=
  ⟨rfl, closed_read_is_silent sample_message sample_final [] [] true ⟨"", ""⟩ rfl⟩

/-- Claim C9 (divergence).  The decorator that `run` installs acts on requests
only, so the response of a successful handshake is not decorated: its `Server`
field is the library version string alone, which differs from the version
string followed by ` websocket-server-async`. -/
theorem handshake_response_server_field (version_string : String) (socket : Socket)
    (accept_key : String) :
    (Session.handshake_response version_string
        (Session.run version_string (Session.new socket)) accept_key).find http_field_server
      = some version_string ∧
    version_string ≠ version_string ++ " websocket-server-async" := by
  constructor
  · simp [Session.handshake_response, Session.run, Session.new, Stream.ofSocket,
      Stream.async_accept, Stream.initiate, Stream.set_option_timeout,
      Stream.set_option_decorator, Decorator.ofCallable, build_response, upgrade_fields,
      Fields.count, Fields.set, Fields.find, http_field_server]
  · intro h
    have hlen := congrArg String.length h
    simp only [String.length_append] at hlen
    have h23 : " websocket-server-async".length = 23 := by decide
    omega

/-! ## The accept loop -/

/-- Claim C5 (counterexample).  The listener is constructed while the address
is in use, so `bind` fails and the acceptor is left unbound and not listening;
`run` all the same makes a strand and initiates an asynchronous accept. -/
theorem run_after_failed_bind_initiates_accept :
    (make_listener sample_message setup_bind_fails sample_endpoint).listener.acceptor_.listening
        = false ∧
      (make_listener sample_message setup_bind_fails sample_endpoint).listener.acceptor_.outstanding
        = [] ∧
      (Listener.run (make_listener sample_message setup_bind_fails
        sample_endpoint)).listener.acceptor_.outstanding = [0] ∧
      (Listener.run (make_listener sample_message setup_bind_fails
        sample_endpoint)).ioc.strands = 1 := by
  decide

/-- Claim C5 (amended).  Whatever the outcome of the set-up calls in the
constructor, `run` makes one strand and initiates exactly one asynchronous
accept with it; it leaves the acceptor otherwise as the constructor left it,
makes no session and writes nothing. -/
theorem run_initiates_one_accept (message : error_code → String) (r : SetupResults)
    (endpoint : Endpoint) :
    (Listener.run (make_listener message r endpoint)).listener.acceptor_ =
        { (make_listener message r endpoint).listener.acceptor_ with
          outstanding := [0], initiated := [0] } ∧
      (Listener.run (make_listener message r endpoint)).ioc.strands = 1 ∧
      (Listener.run (make_listener message r endpoint)).sessions = [] ∧
      (Listener.run (make_listener message r endpoint)).con =
        (make_listener message r endpoint).con := by
  simp only [Listener.run, Listener.do_accept, make_listener, Listener.new,
    Acceptor.async_accept, Acceptor.ofContext]
  split_ifs <;> simp

/-- From a state with one accept outstanding, every sequence of accept
completions is served, and one accept is outstanding at its end. -/
theorem accept_loop_keeps_one_outstanding (message : error_code → String)
    (version_string : String) (cs : List (error_code × Nat)) :
    ∀ (w : Server) (strand : Nat), w.listener.acceptor_.outstanding = [strand] →
      ∃ w' strand', Listener.completions message version_string cs w = some w' ∧
        w'.listener.acceptor_.outstanding = [strand'] := by
  induction cs with
  | nil =>
    intro w strand h
    exact ⟨w, strand, rfl, h⟩
  | cons c cs ih =>
    intro w strand h
    have hstep : ∃ w1, Listener.complete message version_string c.1 c.2 w = some w1 ∧
        w1.listener.acceptor_.outstanding = [w.ioc.strands] := by
      simp only [Listener.complete, h, Listener.on_accept, Listener.do_accept,
        Acceptor.async_accept]
      cases c.1.failed <;> simp
    obtain ⟨w1, h1, hout1⟩ := hstep
    obtain ⟨w2, strand2, h2, hout2⟩ := ih w1 _ hout1
    exact ⟨w2, strand2, by simp only [Listener.completions, h1]; exact h2, hout2⟩

/-- A session constructed on a socket and run owns that socket: its stream
wraps the socket, the server time-outs are set, its buffer is empty, and the
handshake accept is the one operation it has initiated, still outstanding. -/
theorem run_new_owns_socket (version_string : String) (socket : Socket) :
    (Session.run version_string (Session.new socket)).ws_.socket = socket ∧
      (Session.run version_string (Session.new socket)).ws_.outstanding = [AsyncOp.accept] ∧
      (Session.run version_string (Session.new socket)).ws_.initiated = [AsyncOp.accept] ∧
      (Session.run version_string (Session.new socket)).ws_.timeout_opt
        = timeout.suggested role_type.server ∧
      (Session.run version_string (Session.new socket)).buffer_ = [] := by
  simp [Session.run, Session.new, Stream.ofSocket, Stream.async_accept, Stream.initiate,
    Stream.set_option_timeout, Stream.set_option_decorator]

/-- Claim C6.  Accept-loop robustness: when exactly one accept is outstanding
and it completes with any error code (success or failure), `on_accept` initiates
exactly one new accept, on a new strand, which is then the only one outstanding.
On success exactly one session is added and nothing is written to the diagnostic
stream; the added session is the one constructed on the accepted socket and run:
its stream wraps exactly the socket delivered by the accept (the given handle, on
the strand made when the accept was initiated), its buffer is empty, and its
handshake accept is initiated and outstanding.  On failure no session is added
and the error is written to the diagnostic stream. -/
theorem on_accept_rearms_one_accept (message : error_code → String)
    (version_string : String) (ec : error_code) (handle strand : Nat) (w : Server)
    (h : w.listener.acceptor_.outstanding = [strand]) :
    ∃ w', Listener.complete message version_string ec handle w = some w' ∧
      w'.listener.acceptor_.outstanding = [w.ioc.strands] ∧
      w'.listener.acceptor_.initiated = w.listener.acceptor_.initiated ++ [w.ioc.strands] ∧
      w'.ioc.strands = w.ioc.strands + 1 ∧
      (ec.failed = false →
        w'.sessions =
            w.sessions ++ [Session.run version_string (Session.new ⟨handle, strand⟩)] ∧
          w'.con.cerr = w.con.cerr ∧
          ∃ s, w'.sessions = w.sessions ++ [s] ∧
            s.ws_.socket.handle = handle ∧ s.ws_.socket.strand = strand ∧
            s.ws_.outstanding = [AsyncOp.accept] ∧
            s.ws_.initiated = [AsyncOp.accept] ∧
            s.ws_.timeout_opt = timeout.suggested role_type.server ∧
            s.buffer_ = []) ∧
      (ec.failed = true →
        w'.sessions = w.sessions ∧
          w'.con.cerr = w.con.cerr ++ ("what: " ++ message ec ++ "\n")) := by
  obtain ⟨hsock, hout, hini, htime, hbuf⟩ := run_new_owns_socket version_string ⟨handle, strand⟩
  simp only [Listener.complete, h, Listener.on_accept, Listener.do_accept,
    Acceptor.async_accept]
  cases hf : ec.failed
  · refine ⟨_, rfl, ?_, ?_, ?_, ?_, ?_⟩
    · simp
    · simp
    · simp
    · intro _
      refine ⟨by simp, by simp, Session.run version_string (Session.new ⟨handle, strand⟩),
        by simp, ?_, ?_, hout, hini, htime, hbuf⟩
      · rw [hsock]
      · rw [hsock]
    · intro hc
      simp at hc
  · simp [fail_cerr]

/-- The accept loop at a listener that was set up successfully and run, when
its first accept completes successfully with socket handle 5. -/
theorem on_accept_rearms_one_accept_witness :
    (Listener.run (make_listener sample_message setup_ok
        sample_endpoint)).listener.acceptor_.outstanding = [0] ∧
      ∃ w', Listener.complete sample_message sample_version .success 5
          (Listener.run (make_listener sample_message setup_ok sample_endpoint)) = some w' ∧
        w'.listener.acceptor_.outstanding = [1] ∧
        w'.listener.acceptor_.initiated = [0] ++ [1] ∧
        w'.ioc.strands = 1 + 1 ∧
        (error_code.success.failed = false →
          w'.sessions = [] ++ [Session.run sample_version (Session.new ⟨5, 0⟩)] ∧
            w'.con.cerr = "" ∧
            ∃ s, w'.sessions = [] ++ [s] ∧
              s.ws_.socket.handle = 5 ∧ s.ws_.socket.strand = 0 ∧
              s.ws_.outstanding = [AsyncOp.accept] ∧
              s.ws_.initiated = [AsyncOp.accept] ∧
              s.ws_.timeout_opt = timeout.suggested role_type.server ∧
              s.buffer_ = []) ∧
        (error_code.success.failed = true →
          w'.sessions = [] ∧
            w'.con.cerr = "" ++ ("what: " ++ sample_message .success ++ "\n")) :=
  ⟨rfl, on_accept_rearms_one_accept sample_message sample_version .success 5 0
    (Listener.run (make_listener sample_message setup_ok sample_endpoint)) rfl⟩

/-- Claim C7 (counterexample).  The only outstanding accept completes with
`bad_descriptor`: afterwards a new accept is outstanding. -/
theorem bad_descriptor_keeps_accepting :
    (Listener.complete sample_message sample_version net_error_bad_descriptor 0
        (Listener.run (make_listener sample_message setup_ok sample_endpoint))).map
      (fun w => (w.listener.acceptor_.outstanding, w.con.cerr))
      = some ([1], "what: Bad file descriptor\n") := by
  rfl

/-- Claim C7 (amended).  When the only outstanding accept completes with a
failing error code, fatal ones included, `on_accept` reports the error, makes no
session and initiates one further asynchronous accept, so that one accept is
outstanding afterwards: the loop does not stop. -/
theorem failed_accept_rearms (message : error_code → String) (version_string : String)
    (ec : error_code) (handle strand : Nat) (w : Server)
    (h : w.listener.acceptor_.outstanding = [strand]) (hf : ec.failed = true) :
    (Listener.complete message version_string ec handle w).map
      (fun w' => (w'.listener.acceptor_.outstanding, w'.sessions.length, w'.con))
      = some ([w.ioc.strands], w.sessions.length,
          fail message ec "accept"
            { w.con with cout := w.con.cout ++ "Accepted connection" }) := by
  simp [Listener.complete, h, Listener.on_accept, Listener.do_accept,
    Acceptor.async_accept, hf]

/-- The accept loop at a listener that was set up successfully and run, when
its first accept fails with `bad_descriptor`. -/
theorem failed_accept_rearms_witness :
    (Listener.run (make_listener sample_message setup_ok
        sample_endpoint)).listener.acceptor_.outstanding = [0] ∧
      net_error_bad_descriptor.failed = true ∧
      (Listener.complete sample_message sample_version net_error_bad_descriptor 7
          (Listener.run (make_listener sample_message setup_ok sample_endpoint))).map
        (fun w' => (w'.listener.acceptor_.outstanding, w'.sessions.length, w'.con))
        = some ([1], 0, fail sample_message net_error_bad_descriptor "accept"
            ⟨"", "" ++ "Accepted connection"⟩) :=
  ⟨rfl, rfl, failed_accept_rearms sample_message sample_version net_error_bad_descriptor 7 0
    (Listener.run (make_listener sample_message setup_ok sample_endpoint)) rfl rfl⟩

end EchoServer
